import Mathlib

/-!
Verification of the core of the rust-postgres driver (src/postgres/lib.rs)
against its natural-language specification.

The development shallowly embeds the driver's session logic.  Stream I/O is
made explicit: every function that reads backend messages takes the list of
messages the server will deliver (in order) and returns the unread suffix;
every function that writes frontend messages returns the list of messages it
wrote, in order.  A fatal failure of the Rust task (the `fail!` / `assert!`
macros) is modelled as `none`; recoverable errors are `Except.error` /
`Option` values mirroring the Rust `Result` / `Option` returns.

Machine integers are modelled as `Nat` / `Int` with explicit two's-complement
reduction where the source casts (`row_limit as i32`).
-/

namespace RustPostgres

/-- Error and notice field records, as delivered by ErrorResponse and
NoticeResponse: pairs of a one-byte field code and a string value. -/
abbrev Fields := List (Nat × String)

/-- Raw bytes of one data-row column; `none` is the SQL NULL marker. -/
abbrev RowData := List (Option (List Nat))

/-- Modelled from the spec: entry of a RowDescription message ('T'),
carrying a column name and its type OID among other fields (the codec lives
in the message module, which is not part of the provided source; only the
fields that lib.rs consumes, name and type_oid, are retained). -/
structure RowDescriptionEntry where
  name : String
  type_oid : Nat
deriving Repr, DecidableEq

/-- Modelled from the spec: the backend messages of §4.1 as lib.rs consumes
them (the message codec module is not part of the provided source; the
constructors and payloads follow the spec's message list). -/
inductive BackendMessage where
  | AuthenticationOk
  | AuthenticationKerberosV5
  | AuthenticationCleartextPassword
  | AuthenticationMD5Password (salt : List Nat)
  | AuthenticationSCMCredential
  | AuthenticationGSS
  | AuthenticationSSPI
  | BackendKeyData
  | BindComplete
  | CommandComplete (tag : String)
  | DataRow (row : RowData)
  | EmptyQueryResponse
  | ErrorResponse (fields : Fields)
  | NoData
  | NoticeResponse (fields : Fields)
  | ParameterDescription (types : List Nat)
  | ParameterStatus (parameter value : String)
  | ParseComplete
  | PortalSuspended
  | ReadyForQuery (state : Nat)
  | RowDescription (descriptions : List RowDescriptionEntry)
deriving Repr, DecidableEq

/-- Modelled from the spec: the frontend messages of §4.1 as lib.rs emits
them (the message codec module is not part of the provided source).
Describe and Close carry their one-byte variant ('S' = 83, 'P' = 80). -/
inductive FrontendMessage where
  | Bind (portal statement : String) (formats : List Int)
      (values : List (Option (List Nat))) (result_formats : List Int)
  | Close (variant : Nat) (name : String)
  | Describe (variant : Nat) (name : String)
  | Execute (portal : String) (max_rows : Int)
  | Parse (name query : String) (param_types : List Nat)
  | PasswordMessage (password : String)
  | Query (query : String)
  | StartupMessage (parameters : List (String × String))
  | Sync
  | Terminate
deriving Repr, DecidableEq

/-- Backend messages the read_message loop never returns: NoticeResponse is
fed to the notice handler, ParameterStatus is logged and dropped. -/
def BackendMessage.isAsync : BackendMessage → Bool
  | .NoticeResponse _ => true
  | .ParameterStatus _ _ => true
  | _ => false

/-- InnerPostgresConnection::read_message: loop reading from the codec,
feeding NoticeResponse to the notice handler, logging ParameterStatus, and
returning the first message of any other kind.  `none` models a stream with
no further significant message. -/
def read_message : List BackendMessage → Option (BackendMessage × List BackendMessage)
  | [] => none
  | .NoticeResponse _ :: rest => read_message rest
  | .ParameterStatus _ _ :: rest => read_message rest
  | msg :: rest => some (msg, rest)

/-- The notice field records read_message feeds to the notice handler before
returning: the NoticeResponse payloads of the skipped asynchronous run
(each is wrapped in PostgresDbError::new before the handler sees it). -/
def fed_notices : List BackendMessage → List Fields
  | .NoticeResponse f :: rest => f :: fed_notices rest
  | .ParameterStatus _ _ :: rest => fed_notices rest
  | _ => []

/-- InnerPostgresConnection::wait_for_ready: read one significant message,
succeed exactly when it is ReadyForQuery (anything else is a fatal fail!). -/
def wait_for_ready (trace : List BackendMessage) : Option (List BackendMessage) :=
  match read_message trace with
  | some (.ReadyForQuery _, rest) => some rest
  | _ => none


/-! ## Authentication (InnerPostgresConnection::handle_auth) -/

/-- PostgresConnectError: reasons a new connection could fail.  DbError
carries the raw ErrorResponse field records (the source wraps them in
PostgresDbError::new, whose structure no claim inspects). -/
inductive PostgresConnectError where
  | InvalidUrl
  | MissingUser
  | DnsError
  | SocketError
  | DbError (fields : Fields)
  | MissingPassword
  | UnsupportedAuthentication
deriving Repr, DecidableEq

/-- UserInfo from the connection URL: user name and optional password. -/
structure UserInfo where
  user : String
  pass : Option String
deriving Repr, DecidableEq

/-- Lowercase hexadecimal digit for a value below 16. -/
def hexDigit (n : Nat) : Char :=
  if n < 10 then Char.ofNat (48 + n) else Char.ofNat (87 + n)

/-- Two lowercase hex digits of one byte. -/
def byteHex (b : Nat) : List Char :=
  [hexDigit (b / 16 % 16), hexDigit (b % 16)]

/-- Lowercase hex rendering of a byte sequence, as Md5::result_str produces
for a digest. -/
def toHex (bs : List Nat) : String :=
  ⟨(bs.map byteHex).flatten⟩

/-- UTF-8 encoding of one character. -/
def charUtf8 (c : Char) : List Nat :=
  let n := c.toNat
  if n < 128 then [n]
  else if n < 2048 then [192 + n / 64, 128 + n % 64]
  else if n < 65536 then [224 + n / 4096, 128 + n / 64 % 64, 128 + n % 64]
  else [240 + n / 262144, 128 + n / 4096 % 64, 128 + n / 64 % 64, 128 + n % 64]

/-- UTF-8 bytes of a string, as Md5::input_str feeds them to the digest. -/
def strBytes (s : String) : List Nat :=
  (s.data.map charUtf8).flatten

/-- Shared tail of handle_auth: after a PasswordMessage has been written,
read the next significant message; AuthenticationOk succeeds, ErrorResponse
yields DbError, anything else is a fatal fail!. -/
def handle_auth_finish (sent : List FrontendMessage) (trace : List BackendMessage) :
    List FrontendMessage × Option (Option PostgresConnectError × List BackendMessage) :=
  match read_message trace with
  | some (.AuthenticationOk, rest) => (sent, some (none, rest))
  | some (.ErrorResponse fields, rest) => (sent, some (some (.DbError fields), rest))
  | _ => (sent, none)

/-- InnerPostgresConnection::handle_auth, parameterized by the external MD5
digest (a function from input bytes to digest bytes).  Returns the frontend
messages written and, unless the task failed fatally, the optional connect
error together with the unread trace. -/
def handle_auth (md5 : List Nat → List Nat) (user : UserInfo)
    (trace : List BackendMessage) :
    List FrontendMessage × Option (Option PostgresConnectError × List BackendMessage) :=
  match read_message trace with
  | none => ([], none)
  | some (msg, rest) =>
    match msg with
    | .AuthenticationOk => ([], some (none, rest))
    | .AuthenticationCleartextPassword =>
      match user.pass with
      | none => ([], some (some .MissingPassword, rest))
      | some pass => handle_auth_finish [.PasswordMessage pass] rest
    | .AuthenticationMD5Password salt =>
      match user.pass with
      | none => ([], some (some .MissingPassword, rest))
      | some pass =>
        let input := pass ++ user.user
        let output := toHex (md5 (strBytes input))
        let output2 := "md5" ++ toHex (md5 (strBytes output ++ salt))
        handle_auth_finish [.PasswordMessage output2] rest
    | .AuthenticationKerberosV5 | .AuthenticationSCMCredential
    | .AuthenticationGSS | .AuthenticationSSPI =>
        ([], some (some .UnsupportedAuthentication, rest))
    | _ => ([], none)

/-! ## Transactions (PostgresTransaction) -/

/-- PostgresTransaction state: the commit cell and the nesting flag (the
connection back-reference carries no claim-relevant state). -/
structure PostgresTransaction where
  commit : Bool
  nested : Bool
deriving Repr, DecidableEq

/-- PostgresConnection::in_transaction: the query issued on creation and the
transaction handed to the block. -/
def in_transaction_setup : List String × PostgresTransaction :=
  (["BEGIN"], { commit := true, nested := false })

/-- PostgresTransaction::in_transaction: the query issued on creation of a
nested transaction and the transaction handed to the block. -/
def nested_in_transaction_setup : List String × PostgresTransaction :=
  (["SAVEPOINT sp"], { commit := true, nested := true })

/-- Drop for PostgresTransaction: the queries issued on scope exit, given
whether the surrounding task is failing. -/
def PostgresTransaction.drop_queries (task_failing : Bool)
    (t : PostgresTransaction) : List String :=
  if task_failing || !t.commit then
    if t.nested then ["ROLLBACK TO sp"] else ["ROLLBACK"]
  else
    if t.nested then ["RELEASE sp"] else ["COMMIT"]

/-- PostgresTransaction::will_commit: take the commit cell, put the value
back, return it.  Components: returned value, resulting transaction state,
queries issued. -/
def PostgresTransaction.will_commit (t : PostgresTransaction) :
    Bool × PostgresTransaction × List String :=
  let commit := t.commit
  (commit, { t with commit := commit }, [])

/-- PostgresTransaction::set_commit: replace the commit cell with true.
Components: resulting transaction state, queries issued. -/
def PostgresTransaction.set_commit (t : PostgresTransaction) :
    PostgresTransaction × List String :=
  ({ t with commit := true }, [])

/-- PostgresTransaction::set_rollback: replace the commit cell with false.
Components: resulting transaction state, queries issued. -/
def PostgresTransaction.set_rollback (t : PostgresTransaction) :
    PostgresTransaction × List String :=
  ({ t with commit := false }, [])

/-! ## Prepared statements (NormalPostgresStatement) -/

/-- Modelled from the spec: a PostgresType as the external type registry
supplies it for an OID — a semantic tag (kept as the OID itself) together
with the preferred result-format code its result_format method reports (the
types module is an external collaborator, not part of the provided source). -/
structure PostgresType where
  oid : Nat
  result_format_code : Int
deriving Repr, DecidableEq

/-- PostgresType::result_format: the preferred wire format of the type. -/
def PostgresType.result_format (t : PostgresType) : Int :=
  t.result_format_code

/-- ResultDescription: name and type of one column of a query result. -/
structure ResultDescription where
  name : String
  ty : PostgresType
deriving Repr, DecidableEq

/-- ResultDescription::from_row_description_entry, parameterized by the
external registry mapping an OID to a PostgresType. -/
def ResultDescription.from_row_description_entry (from_oid : Nat → PostgresType)
    (row : RowDescriptionEntry) : ResultDescription :=
  { name := row.name, ty := from_oid row.type_oid }

/-- NormalPostgresStatement: server-side name, parameter types, result
column descriptions and the next-portal counter. -/
structure NormalPostgresStatement where
  name : String
  param_types : List PostgresType
  result_desc : List ResultDescription
  next_portal_id : Nat
deriving Repr, DecidableEq

/-- A ToSql parameter as execute consumes it: to_sql takes the expected
type and yields the wire format code and the optional value bytes. -/
abbrev Param := PostgresType → Int × Option (List Nat)

/-- Two's-complement i32 value of a uint cast with `as i32`. -/
def i32ofNat (n : Nat) : Int :=
  let m := n % 4294967296
  if m < 2147483648 then (m : Int) else (m : Int) - 4294967296

/-- InnerPostgresConnection::try_prepare: write Parse, Describe('S'), Sync,
then read ParseComplete (or ErrorResponse: consume the ReadyForQuery and
surface a DbError), ParameterDescription, RowDescription or NoData, and the
final ReadyForQuery.  Any other message is a fatal fail!. -/
def try_prepare (from_oid : Nat → PostgresType) (next_stmt_id : Int)
    (query : String) (trace : List BackendMessage) :
    List FrontendMessage ×
      Option (Except Fields NormalPostgresStatement × List BackendMessage) :=
  let stmt_name := "statement_" ++ toString next_stmt_id
  let writes : List FrontendMessage :=
    [.Parse stmt_name query [], .Describe 83 stmt_name, .Sync]
  match read_message trace with
  | some (.ParseComplete, rest) =>
    match read_message rest with
    | some (.ParameterDescription types, rest2) =>
      let param_types := types.map from_oid
      match read_message rest2 with
      | some (.RowDescription descriptions, rest3) =>
        let result_desc := descriptions.map
          (ResultDescription.from_row_description_entry from_oid)
        match wait_for_ready rest3 with
        | some rest4 =>
          (writes, some (.ok ⟨stmt_name, param_types, result_desc, 0⟩, rest4))
        | none => (writes, none)
      | some (.NoData, rest3) =>
        match wait_for_ready rest3 with
        | some rest4 =>
          (writes, some (.ok ⟨stmt_name, param_types, [], 0⟩, rest4))
        | none => (writes, none)
      | _ => (writes, none)
    | _ => (writes, none)
  | some (.ErrorResponse fields, rest) =>
    match wait_for_ready rest with
    | some rest2 => (writes, some (.error fields, rest2))
    | none => (writes, none)
  | _ => (writes, none)

/-- NormalPostgresStatement::execute: assert the parameter count matches
(else a fatal programming-error abort with nothing written), encode the
parameters, write Bind, Execute(portal, row_limit), Sync, then read
BindComplete (or ErrorResponse: consume the ReadyForQuery and surface the
error fields). -/
def NormalPostgresStatement.execute (st : NormalPostgresStatement)
    (portal_name : String) (row_limit : Nat) (params : List Param)
    (trace : List BackendMessage) :
    List FrontendMessage × Option (Option Fields × List BackendMessage) :=
  if st.param_types.length = params.length then
    let pairs := (params.zip st.param_types).map (fun pt => pt.1 pt.2)
    let formats := pairs.map (fun p => p.1)
    let values := pairs.map (fun p => p.2)
    let result_formats := st.result_desc.map (fun desc => desc.ty.result_format)
    let writes : List FrontendMessage :=
      [.Bind portal_name st.name formats values result_formats,
       .Execute portal_name (i32ofNat row_limit), .Sync]
    match read_message trace with
    | some (.BindComplete, rest) => (writes, some (none, rest))
    | some (.ErrorResponse fields, rest) =>
      match wait_for_ready rest with
      | some rest2 => (writes, some (some fields, rest2))
      | none => (writes, none)
    | _ => (writes, none)
  else ([], none)

/-- Rust char split of a character list, as tag.split_iter(' ') produces
its tokens: separators delimit (possibly empty) tokens, and the empty input
yields one empty token. -/
def splitOnChar (sep : Char) : List Char → List (List Char)
  | [] => [[]]
  | c :: rest =>
    if c = sep then [] :: splitOnChar sep rest
    else
      match splitOnChar sep rest with
      | [] => [[c]]
      | tok :: toks => (c :: tok) :: toks

/-- FromStr for uint: digits only, empty input rejected. -/
def fromStrUint (cs : List Char) : Option Nat :=
  if cs ≠ [] ∧ cs.all (fun c => c.isDigit) then
    some (cs.foldl (fun acc c => acc * 10 + (c.toNat - 48)) 0)
  else none

/-- Row count extracted from a CommandComplete tag in try_update: the last
space-separated token, parsed as a uint with 0 as the fallback (the split
of a nonempty-token list is never empty, so the source's last().unwrap()
cannot fail). -/
def command_complete_rows (tag : String) : Nat :=
  ((fromStrUint ((splitOnChar ' ' tag.data).getLastD [])).getD 0)

/-- The read loop of NormalPostgresStatement::try_update after execute:
drain messages until CommandComplete (tag parsed for the row count) or
EmptyQueryResponse (count 0), ignoring DataRow; on ErrorResponse consume
the ReadyForQuery and surface the error; then consume the final
ReadyForQuery.  Each iteration reads via read_message, whose skipping of
NoticeResponse and ParameterStatus is inlined in the first two arms (the
source's own NoticeResponse arm is dead code for the same reason).  Any
other message is a fatal fail!. -/
def update_drain : List BackendMessage → Option (Except Fields Nat × List BackendMessage)
  | [] => none
  | .NoticeResponse _ :: rest => update_drain rest
  | .ParameterStatus _ _ :: rest => update_drain rest
  | .CommandComplete tag :: rest =>
    match wait_for_ready rest with
    | some rest2 => some (.ok (command_complete_rows tag), rest2)
    | none => none
  | .DataRow _ :: rest => update_drain rest
  | .EmptyQueryResponse :: rest =>
    match wait_for_ready rest with
    | some rest2 => some (.ok 0, rest2)
    | none => none
  | .ErrorResponse fields :: rest =>
    match wait_for_ready rest with
    | some rest2 => some (.error fields, rest2)
    | none => none
  | _ :: _ => none

/-- Messages the try_update drain loop passes over without ending the loop:
DataRow (explicitly ignored by the loop) and the asynchronous NoticeResponse
and ParameterStatus (never surfaced by read_message). -/
def updateIgnorable : BackendMessage → Bool
  | .DataRow _ => true
  | .NoticeResponse _ => true
  | .ParameterStatus _ _ => true
  | _ => false

/-- NormalPostgresStatement::try_update: execute with the unnamed portal and
no row limit, then drain per update_drain. -/
def NormalPostgresStatement.try_update (st : NormalPostgresStatement)
    (params : List Param) (trace : List BackendMessage) :
    List FrontendMessage × Option (Except Fields Nat × List BackendMessage) :=
  match st.execute "" 0 params trace with
  | (w, none) => (w, none)
  | (w, some (some fields, rest)) => (w, some (.error fields, rest))
  | (w, some (none, rest)) =>
    match update_drain rest with
    | some res => (w, some res)
    | none => (w, none)

/-! ## Result cursor (PostgresResult) -/

/-- PostgresResult: the statement, portal name, FIFO row buffer (front at
the head), row limit and more_rows flag. -/
structure PostgresResult where
  stmt : NormalPostgresStatement
  name : String
  data : List RowData
  row_limit : Nat
  more_rows : Bool
deriving Repr, DecidableEq

/-- PostgresResult::read_rows: read until CommandComplete or
EmptyQueryResponse (more_rows := false) or PortalSuspended
(more_rows := true), enqueueing each DataRow payload; then consume the
ReadyForQuery.  Any other message is a fatal fail!. -/
def PostgresResult.read_rows (r : PostgresResult) :
    List BackendMessage → Option (PostgresResult × List BackendMessage)
  | [] => none
  | .NoticeResponse _ :: rest => PostgresResult.read_rows r rest
  | .ParameterStatus _ _ :: rest => PostgresResult.read_rows r rest
  | .EmptyQueryResponse :: rest =>
    (wait_for_ready rest).map (fun rest2 => ({ r with more_rows := false }, rest2))
  | .CommandComplete _ :: rest =>
    (wait_for_ready rest).map (fun rest2 => ({ r with more_rows := false }, rest2))
  | .PortalSuspended :: rest =>
    (wait_for_ready rest).map (fun rest2 => ({ r with more_rows := true }, rest2))
  | .DataRow row :: rest =>
    PostgresResult.read_rows { r with data := r.data ++ [row] } rest
  | _ :: _ => none

/-- PostgresResult::execute: write Execute(portal, row_limit), Sync, then
read_rows. -/
def PostgresResult.execute (r : PostgresResult) (trace : List BackendMessage) :
    List FrontendMessage × Option (PostgresResult × List BackendMessage) :=
  ([.Execute r.name (i32ofNat r.row_limit), .Sync], r.read_rows trace)

/-- Iterator::next for PostgresResult: when the buffer is empty and
more_rows holds, fetch another batch via execute; then pop the front of the
buffer (the popped row is returned bound to the statement). -/
def PostgresResult.next (r : PostgresResult) (trace : List BackendMessage) :
    List FrontendMessage ×
      Option (Option RowData × PostgresResult × List BackendMessage) :=
  if r.data.isEmpty && r.more_rows then
    match r.execute trace with
    | (w, none) => (w, none)
    | (w, some (r2, rest)) =>
      match r2.data with
      | [] => (w, some (none, r2, rest))
      | row :: tl => (w, some (some row, { r2 with data := tl }, rest))
  else
    match r.data with
    | [] => ([], some (none, r, trace))
    | row :: tl => ([], some (some row, { r with data := tl }, trace))

/-- NormalPostgresStatement::try_lazy_query: allocate the portal name,
bump the portal counter, execute, then build the cursor and read the first
batch of rows. -/
def NormalPostgresStatement.try_lazy_query (st : NormalPostgresStatement)
    (row_limit : Nat) (params : List Param) (trace : List BackendMessage) :
    List FrontendMessage ×
      Option (Except Fields PostgresResult × List BackendMessage) :=
  let id := st.next_portal_id
  let portal_name := st.name ++ "_portal_" ++ toString id
  let st2 := { st with next_portal_id := id + 1 }
  match st2.execute portal_name row_limit params trace with
  | (w, none) => (w, none)
  | (w, some (some fields, rest)) => (w, some (.error fields, rest))
  | (w, some (none, rest)) =>
    let result : PostgresResult :=
      { stmt := st2, name := portal_name, data := [], row_limit := row_limit,
        more_rows := true }
    match result.read_rows rest with
    | some (result2, rest2) => (w, some (.ok result2, rest2))
    | none => (w, none)

/-- NormalPostgresStatement::try_query: try_lazy_query with row limit 0. -/
def NormalPostgresStatement.try_query (st : NormalPostgresStatement)
    (params : List Param) (trace : List BackendMessage) :
    List FrontendMessage ×
      Option (Except Fields PostgresResult × List BackendMessage) :=
  st.try_lazy_query 0 params trace

/-! ## Rows and column lookup -/

/-- NormalPostgresStatement::find_col_named: position of the first result
description whose name equals the given column name. -/
def NormalPostgresStatement.find_col_named (st : NormalPostgresStatement)
    (col : String) : Option Nat :=
  st.result_desc.findIdx? (fun desc => desc.name == col)

/-- PostgresRow: the owning statement and one row of optional column
payloads. -/
structure PostgresRow where
  stmt : NormalPostgresStatement
  data : RowData

/-- Index for PostgresRow at an already-resolved column index, parameterized
by the external FromSql decoder: from_sql applied to the column's type and
payload; indexing out of range is a fatal abort (none). -/
def PostgresRow.index {V : Type} (from_sql : PostgresType → Option (List Nat) → V)
    (row : PostgresRow) (idx : Nat) : Option V :=
  match row.stmt.result_desc.get? idx, row.data.get? idx with
  | some desc, some d => some (from_sql desc.ty d)
  | _, _ => none

/-- RowIndex for uint: the index itself, no lookup. -/
def RowIndex.idxOfNat (i : Nat) (_stmt : NormalPostgresStatement) : Option Nat :=
  some i

/-- RowIndex for str: find_col_named, a fatal fail2! (none) when the name is
absent. -/
def RowIndex.idxOfName (name : String) (stmt : NormalPostgresStatement) :
    Option Nat :=
  stmt.find_col_named name

/-- Indexing a row by column name: resolve via RowIndex for str, then index. -/
def PostgresRow.index_by_name {V : Type}
    (from_sql : PostgresType → Option (List Nat) → V) (row : PostgresRow)
    (name : String) : Option V :=
  match RowIndex.idxOfName name row.stmt with
  | some idx => row.index from_sql idx
  | none => none

/-! ## Theorems -/

theorem read_message_shrinks (trace msg : _) (rest : List BackendMessage)
    (h : read_message trace = some (msg, rest)) : rest.length < trace.length := by
  induction trace with
  | nil => simp [read_message] at h
  | cons m trace' ih =>
    match m with
    | .NoticeResponse f =>
      simp only [read_message] at h
      exact Nat.lt_succ_of_lt (ih h)
    | .ParameterStatus p v =>
      simp only [read_message] at h
      exact Nat.lt_succ_of_lt (ih h)
    | .AuthenticationOk | .AuthenticationKerberosV5 | .AuthenticationCleartextPassword
    | .AuthenticationMD5Password _ | .AuthenticationSCMCredential | .AuthenticationGSS
    | .AuthenticationSSPI | .BackendKeyData | .BindComplete | .CommandComplete _
    | .DataRow _ | .EmptyQueryResponse | .ErrorResponse _ | .NoData
    | .ParameterDescription _ | .ParseComplete | .PortalSuspended
    | .ReadyForQuery _ | .RowDescription _ =>
      simp only [read_message, Option.some.injEq, Prod.mk.injEq] at h
      obtain ⟨rfl, rfl⟩ := h
      exact Nat.lt_succ_self _

theorem read_message_sound (trace msg : _) (rest : List BackendMessage)
    (h : read_message trace = some (msg, rest)) :
    msg.isAsync = false ∧
    ∃ pre, trace = pre ++ msg :: rest ∧ (∀ m ∈ pre, m.isAsync = true) ∧
      fed_notices trace = pre.filterMap
        (fun m => match m with | .NoticeResponse f => some f | _ => none) := by
  induction trace with
  | nil => simp [read_message] at h
  | cons m rest' ih =>
    match m with
    | .NoticeResponse f =>
      simp only [read_message] at h
      obtain ⟨ha, pre, heq, hpre, hfed⟩ := ih h
      exact ⟨ha, .NoticeResponse f :: pre, by simp [heq], by
        simpa [BackendMessage.isAsync] using hpre, by simp [fed_notices, hfed]⟩
    | .ParameterStatus p v =>
      simp only [read_message] at h
      obtain ⟨ha, pre, heq, hpre, hfed⟩ := ih h
      exact ⟨ha, .ParameterStatus p v :: pre, by simp [heq], by
        simpa [BackendMessage.isAsync] using hpre, by simp [fed_notices, hfed]⟩
    | .AuthenticationOk | .AuthenticationKerberosV5 | .AuthenticationCleartextPassword
    | .AuthenticationMD5Password _ | .AuthenticationSCMCredential | .AuthenticationGSS
    | .AuthenticationSSPI | .BackendKeyData | .BindComplete | .CommandComplete _
    | .DataRow _ | .EmptyQueryResponse | .ErrorResponse _ | .NoData
    | .ParameterDescription _ | .ParseComplete | .PortalSuspended
    | .ReadyForQuery _ | .RowDescription _ =>
      simp only [read_message, Option.some.injEq, Prod.mk.injEq] at h
      obtain ⟨rfl, rfl⟩ := h
      exact ⟨rfl, [], by simp, by simp, by simp [fed_notices]⟩

theorem read_message_skips_async (pre trace : List BackendMessage)
    (h : ∀ m ∈ pre, m.isAsync = true) :
    read_message (pre ++ trace) = read_message trace := by
  induction pre with
  | nil => rfl
  | cons m pre ih =>
    have hm : m.isAsync = true := h m (by simp)
    have hrec := ih (fun x hx => h x (by simp [hx]))
    match m with
    | .NoticeResponse f => simpa [read_message] using hrec
    | .ParameterStatus p v => simpa [read_message] using hrec
    | .AuthenticationOk | .AuthenticationKerberosV5 | .AuthenticationCleartextPassword
    | .AuthenticationMD5Password _ | .AuthenticationSCMCredential | .AuthenticationGSS
    | .AuthenticationSSPI | .BackendKeyData | .BindComplete | .CommandComplete _
    | .DataRow _ | .EmptyQueryResponse | .ErrorResponse _ | .NoData
    | .ParameterDescription _ | .ParseComplete | .PortalSuspended
    | .ReadyForQuery _ | .RowDescription _ => simp [BackendMessage.isAsync] at hm


theorem handle_auth_finish_fst (sent : List FrontendMessage)
    (trace : List BackendMessage) : (handle_auth_finish sent trace).1 = sent := by
  unfold handle_auth_finish
  split <;> rfl

/-- C1: whenever the server answers the startup message with an MD5
authentication challenge carrying some salt, handle_auth writes exactly one
PasswordMessage, whose password field is the string md5 followed by the
lowercase hex MD5 digest of (the lowercase hex MD5 digest of the password
concatenated with the user) concatenated with the salt bytes; this holds
for every user, password, salt and digest function, hence in particular for
user alice, password secret and salt 01 02 03 04. -/
theorem md5_auth_password_message (md5 : List Nat → List Nat)
    (user pass : String) (salt : List Nat) (trace rest : List BackendMessage)
    (h : read_message trace = some (.AuthenticationMD5Password salt, rest)) :
    (handle_auth md5 ⟨user, some pass⟩ trace).1 =
      [.PasswordMessage ("md5" ++
        toHex (md5 (strBytes (toHex (md5 (strBytes (pass ++ user)))) ++ salt)))] := by
  unfold handle_auth
  rw [h]
  exact handle_auth_finish_fst _ _

/-- Witness for C1: user alice, password secret, salt 01 02 03 04, with byte
reversal standing in for the external digest. -/
theorem md5_auth_password_message_witness :
    (handle_auth (fun l => l.reverse) ⟨"alice", some "secret"⟩
        [.AuthenticationMD5Password [1, 2, 3, 4], .AuthenticationOk]).1 =
      [.PasswordMessage ("md5" ++
        toHex ((strBytes (toHex ((strBytes ("secret" ++ "alice")).reverse)) ++
          [1, 2, 3, 4]).reverse))] :=
  md5_auth_password_message (fun l => l.reverse) "alice" "secret" [1, 2, 3, 4]
    _ _ rfl

/-- C9: when the server answers with an MD5-password challenge and the URL
supplied no password, handle_auth fails with MissingPassword and writes no
PasswordMessage (no frontend message at all). -/
theorem md5_missing_password_error (md5 : List Nat → List Nat) (user : String)
    (salt : List Nat) (trace rest : List BackendMessage)
    (h : read_message trace = some (.AuthenticationMD5Password salt, rest)) :
    handle_auth md5 ⟨user, none⟩ trace =
      ([], some (some .MissingPassword, rest)) := by
  unfold handle_auth
  rw [h]

/-- Witness for C9 at user alice with no password. -/
theorem md5_missing_password_error_witness :
    handle_auth (fun l => l) ⟨"alice", none⟩
        [.AuthenticationMD5Password [1, 2, 3, 4], .AuthenticationOk] =
      ([], some (some .MissingPassword, [.AuthenticationOk])) :=
  md5_missing_password_error (fun l => l) "alice" [1, 2, 3, 4] _ _ rfl

/-- C2: the transaction controller issues exactly one exit statement per
scope, chosen per the exit table: abnormal exit rolls back (to sp when
nested) regardless of the commit flag; normal exit commits (releases sp
when nested) when the flag is true and rolls back otherwise; a top-level
transaction issues BEGIN on creation, a nested one SAVEPOINT sp, and the
commit flag starts out true. -/
theorem transaction_exit_policy :
    (∀ c : Bool, PostgresTransaction.drop_queries true ⟨c, false⟩ = ["ROLLBACK"]) ∧
    (∀ c : Bool, PostgresTransaction.drop_queries true ⟨c, true⟩ = ["ROLLBACK TO sp"]) ∧
    PostgresTransaction.drop_queries false ⟨true, false⟩ = ["COMMIT"] ∧
    PostgresTransaction.drop_queries false ⟨true, true⟩ = ["RELEASE sp"] ∧
    PostgresTransaction.drop_queries false ⟨false, false⟩ = ["ROLLBACK"] ∧
    PostgresTransaction.drop_queries false ⟨false, true⟩ = ["ROLLBACK TO sp"] ∧
    (∀ (f : Bool) (t : PostgresTransaction),
      (PostgresTransaction.drop_queries f t).length = 1) ∧
    in_transaction_setup.1 = ["BEGIN"] ∧
    in_transaction_setup.2.commit = true ∧
    in_transaction_setup.2.nested = false ∧
    nested_in_transaction_setup.1 = ["SAVEPOINT sp"] ∧
    nested_in_transaction_setup.2.commit = true ∧
    nested_in_transaction_setup.2.nested = true := by
  refine ⟨fun c => ?_, fun c => ?_, rfl, rfl, rfl, rfl, fun f t => ?_,
    rfl, rfl, rfl, rfl, rfl, rfl⟩
  · cases c <;> rfl
  · cases c <;> rfl
  · cases t with
    | mk c n => cases f <;> cases c <;> cases n <;> rfl

/-- C10: will_commit returns the current commit flag and changes nothing;
set_commit sets the flag to true and set_rollback to false, regardless of
the prior value; none of the three issues any query or touches any other
field. -/
theorem commit_flag_accessors_frame (t : PostgresTransaction) :
    t.will_commit = (t.commit, t, []) ∧
    t.set_commit = ({ commit := true, nested := t.nested }, []) ∧
    t.set_rollback = ({ commit := false, nested := t.nested }, []) := by
  cases t
  exact ⟨rfl, rfl, rfl⟩

/-- C8: read_message never hands a NoticeResponse or ParameterStatus to its
caller; it returns the first message of any other kind, having skipped
exactly an asynchronous run whose NoticeResponse payloads it fed to the
notice handler. -/
theorem read_message_dispatch (trace msg : _) (rest : List BackendMessage)
    (h : read_message trace = some (msg, rest)) :
    (∀ f, msg ≠ .NoticeResponse f) ∧ (∀ p v, msg ≠ .ParameterStatus p v) ∧
    ∃ pre, trace = pre ++ msg :: rest ∧ (∀ m ∈ pre, m.isAsync = true) ∧
      fed_notices trace = pre.filterMap
        (fun m => match m with | .NoticeResponse f => some f | _ => none) := by
  obtain ⟨ha, pre, h1, h2, h3⟩ := read_message_sound trace msg rest h
  refine ⟨?_, ?_, pre, h1, h2, h3⟩
  · rintro f rfl
    simp [BackendMessage.isAsync] at ha
  · rintro p v rfl
    simp [BackendMessage.isAsync] at ha

/-- Witness for C8: a notice and a parameter status precede a ReadyForQuery. -/
theorem read_message_dispatch_witness :
    (∀ f, BackendMessage.ReadyForQuery 73 ≠ .NoticeResponse f) ∧
    (∀ p v, BackendMessage.ReadyForQuery 73 ≠ .ParameterStatus p v) ∧
    ∃ pre, [BackendMessage.NoticeResponse [(83, "WARNING")],
        .ParameterStatus "TimeZone" "GMT", .ReadyForQuery 73] =
        pre ++ BackendMessage.ReadyForQuery 73 :: [] ∧
      (∀ m ∈ pre, m.isAsync = true) ∧
      fed_notices [BackendMessage.NoticeResponse [(83, "WARNING")],
        .ParameterStatus "TimeZone" "GMT", .ReadyForQuery 73] = pre.filterMap
        (fun m => match m with | .NoticeResponse f => some f | _ => none) :=
  read_message_dispatch _ (.ReadyForQuery 73) [] rfl

theorem execute_arity_fatal (st : NormalPostgresStatement) (portal : String)
    (limit : Nat) (params : List Param) (trace : List BackendMessage)
    (h : params.length ≠ st.param_types.length) :
    st.execute portal limit params trace = ([], none) := by
  unfold NormalPostgresStatement.execute
  rw [if_neg (fun hh => h hh.symm)]

/-- C4: calling execute, try_update or try_query with a parameter list whose
length differs from the statement's parameter-type list aborts fatally (a
programming error, not a returned DbError) with no frontend message written,
so no byte of the Bind, Execute, Sync sequence reaches the stream. -/
theorem param_arity_mismatch_fatal (st : NormalPostgresStatement)
    (params : List Param) (portal : String) (limit : Nat)
    (trace : List BackendMessage)
    (h : params.length ≠ st.param_types.length) :
    st.execute portal limit params trace = ([], none) ∧
    st.try_update params trace = ([], none) ∧
    st.try_query params trace = ([], none) := by
  refine ⟨execute_arity_fatal st portal limit params trace h, ?_, ?_⟩
  · unfold NormalPostgresStatement.try_update
    rw [execute_arity_fatal st "" 0 params trace h]
  · have h2 := execute_arity_fatal
      ⟨st.name, st.param_types, st.result_desc, st.next_portal_id + 1⟩
      (st.name ++ "_portal_" ++ toString st.next_portal_id) 0 params trace h
    simp only [NormalPostgresStatement.try_query,
      NormalPostgresStatement.try_lazy_query, h2]

/-- Witness for C4: a statement expecting one parameter, called with none. -/
theorem param_arity_mismatch_fatal_witness :
    ([] : List Param).length ≠ ([⟨23, 1⟩] : List PostgresType).length ∧
    (NormalPostgresStatement.execute ⟨"statement_0", [⟨23, 1⟩], [], 0⟩ "" 0 [] []
        = ([], none) ∧
      NormalPostgresStatement.try_update ⟨"statement_0", [⟨23, 1⟩], [], 0⟩ [] []
        = ([], none) ∧
      NormalPostgresStatement.try_query ⟨"statement_0", [⟨23, 1⟩], [], 0⟩ [] []
        = ([], none)) :=
  ⟨by decide,
   param_arity_mismatch_fatal ⟨"statement_0", [⟨23, 1⟩], [], 0⟩ [] "" 0 []
     (by decide)⟩

theorem update_drain_skips (noise tr : List BackendMessage)
    (h : ∀ m ∈ noise, updateIgnorable m = true) :
    update_drain (noise ++ tr) = update_drain tr := by
  induction noise with
  | nil => rfl
  | cons m noise ih =>
    have hm : updateIgnorable m = true := h m (by simp)
    have hrec := ih (fun x hx => h x (by simp [hx]))
    match m with
    | .DataRow _ => simpa [update_drain] using hrec
    | .NoticeResponse _ => simpa [update_drain] using hrec
    | .ParameterStatus _ _ => simpa [update_drain] using hrec
    | .AuthenticationOk | .AuthenticationKerberosV5 | .AuthenticationCleartextPassword
    | .AuthenticationMD5Password _ | .AuthenticationSCMCredential | .AuthenticationGSS
    | .AuthenticationSSPI | .BackendKeyData | .BindComplete | .CommandComplete _
    | .EmptyQueryResponse | .ErrorResponse _ | .NoData
    | .ParameterDescription _ | .ParseComplete | .PortalSuspended
    | .ReadyForQuery _ | .RowDescription _ => simp [updateIgnorable] at hm

theorem isAsync_updateIgnorable (m : BackendMessage) (h : m.isAsync = true) :
    updateIgnorable m = true := by
  match m with
  | .NoticeResponse _ => rfl
  | .ParameterStatus _ _ => rfl
  | .AuthenticationOk | .AuthenticationKerberosV5 | .AuthenticationCleartextPassword
  | .AuthenticationMD5Password _ | .AuthenticationSCMCredential | .AuthenticationGSS
  | .AuthenticationSSPI | .BackendKeyData | .BindComplete | .CommandComplete _
  | .DataRow _ | .EmptyQueryResponse | .ErrorResponse _ | .NoData
  | .ParameterDescription _ | .ParseComplete | .PortalSuspended
  | .ReadyForQuery _ | .RowDescription _ => simp [BackendMessage.isAsync] at h

theorem update_drain_error (tr : List BackendMessage) (f : Fields)
    (rest : List BackendMessage)
    (h : read_message tr = some (.ErrorResponse f, rest)) :
    update_drain tr =
      match wait_for_ready rest with
      | some rest2 => some (.error f, rest2)
      | none => none := by
  obtain ⟨-, pre, rfl, hpre, -⟩ := read_message_sound tr _ rest h
  rw [update_drain_skips pre _ (fun m hm => isAsync_updateIgnorable m (hpre m hm))]
  rfl

/-- C3: whenever an exchange meets an ErrorResponse whose next significant
message is the ReadyForQuery the server sends after skipping to Sync, the
implementation consumes the trace through that ReadyForQuery and surfaces
the error fields as a DbError result, leaving exactly the messages beyond
the ReadyForQuery unread — the connection is idle for the next exchange.
This covers the prepare exchange, the bind and execute exchange, and the
update drain (where any DataRows precede the error). -/
theorem error_response_consumes_ready (from_oid : Nat → PostgresType)
    (id : Int) (q : String) (st : NormalPostgresStatement) (portal : String)
    (limit : Nat) (params : List Param) (rows : List RowData) (f : Fields)
    (s : Nat) (tr rest rest' : List BackendMessage)
    (harity : st.param_types.length = params.length)
    (h1 : read_message tr = some (.ErrorResponse f, rest))
    (h2 : read_message rest = some (.ReadyForQuery s, rest')) :
    (try_prepare from_oid id q tr).2 = some (.error f, rest') ∧
    (st.execute portal limit params tr).2 = some (some f, rest') ∧
    (st.try_update params (.BindComplete :: (rows.map .DataRow ++ tr))).2 =
      some (.error f, rest') := by
  have hw : wait_for_ready rest = some rest' := by
    unfold wait_for_ready
    rw [h2]
  refine ⟨?_, ?_, ?_⟩
  · simp only [try_prepare, h1, hw]
  · simp only [NormalPostgresStatement.execute, if_pos harity, h1, hw]
  · have hdrain : update_drain (rows.map .DataRow ++ tr) =
        some (.error f, rest') := by
      rw [update_drain_skips (rows.map .DataRow) tr
        (by intro m hm; obtain ⟨row, -, rfl⟩ := List.mem_map.mp hm; rfl)]
      rw [update_drain_error tr f rest h1, hw]
    simp only [NormalPostgresStatement.try_update, NormalPostgresStatement.execute,
      if_pos harity, read_message, hdrain]

/-- Witness for C3: a division-by-zero ErrorResponse followed by
ReadyForQuery, in all three exchange shapes. -/
theorem error_response_consumes_ready_witness :
    (NormalPostgresStatement.param_types ⟨"statement_0", [⟨23, 1⟩], [], 0⟩).length =
      ([fun _ => (0, none)] : List Param).length ∧
    read_message [BackendMessage.ErrorResponse [(67, "22012")], .ReadyForQuery 73] =
      some (.ErrorResponse [(67, "22012")], [.ReadyForQuery 73]) ∧
    read_message [BackendMessage.ReadyForQuery 73] = some (.ReadyForQuery 73, []) ∧
    ((try_prepare (fun o => ⟨o, 0⟩) 0 "SELECT 1/0"
        [.ErrorResponse [(67, "22012")], .ReadyForQuery 73]).2 =
      some (.error [(67, "22012")], []) ∧
     (NormalPostgresStatement.execute ⟨"statement_0", [⟨23, 1⟩], [], 0⟩ "" 0
        [fun _ => (0, none)]
        [.ErrorResponse [(67, "22012")], .ReadyForQuery 73]).2 =
      some (some [(67, "22012")], []) ∧
     (NormalPostgresStatement.try_update ⟨"statement_0", [⟨23, 1⟩], [], 0⟩
        [fun _ => (0, none)]
        (.BindComplete :: ([[some [1]]].map BackendMessage.DataRow ++
          [.ErrorResponse [(67, "22012")], .ReadyForQuery 73]))).2 =
      some (.error [(67, "22012")], [])) :=
  ⟨rfl, rfl, rfl,
   error_response_consumes_ready (fun o => ⟨o, 0⟩) 0 "SELECT 1/0"
     ⟨"statement_0", [⟨23, 1⟩], [], 0⟩ "" 0 [fun _ => (0, none)] [[some [1]]]
     [(67, "22012")] 73 _ _ _ rfl rfl rfl⟩

/-- C6: on the update path the drain ignores DataRows and asynchronous
notices; a CommandComplete tag yields its last space-separated token parsed
as a non-negative integer with 0 as the non-numeric fallback, and an
EmptyQueryResponse yields 0; in both cases the trailing ReadyForQuery is
consumed. -/
theorem update_rowcount_tag_parse (st : NormalPostgresStatement)
    (params : List Param) (noise : List BackendMessage) (tag : String)
    (s s' : Nat) (rest rest2 : List BackendMessage)
    (harity : st.param_types.length = params.length)
    (hnoise : ∀ m ∈ noise, updateIgnorable m = true) :
    (st.try_update params
        (.BindComplete :: (noise ++ .CommandComplete tag :: .ReadyForQuery s :: rest))).2 =
      some (.ok ((fromStrUint ((splitOnChar ' ' tag.data).getLastD [])).getD 0),
        rest) ∧
    (st.try_update params
        (.BindComplete :: (noise ++ .EmptyQueryResponse :: .ReadyForQuery s' :: rest2))).2 =
      some (.ok 0, rest2) := by
  constructor
  · simp only [NormalPostgresStatement.try_update, NormalPostgresStatement.execute,
      if_pos harity, read_message, update_drain_skips noise _ hnoise]
    rfl
  · simp only [NormalPostgresStatement.try_update, NormalPostgresStatement.execute,
      if_pos harity, read_message, update_drain_skips noise _ hnoise]
    rfl

/-- Witness for C6: an INSERT tag with count 42 after a stray DataRow and a
notice, and an EmptyQueryResponse, on a statement with no parameters. -/
theorem update_rowcount_tag_parse_witness :
    (NormalPostgresStatement.param_types ⟨"statement_0", [], [], 0⟩).length =
      ([] : List Param).length ∧
    (∀ m ∈ [BackendMessage.DataRow [], .NoticeResponse [(83, "NOTICE")]],
      updateIgnorable m = true) ∧
    ((NormalPostgresStatement.try_update ⟨"statement_0", [], [], 0⟩ []
        (.BindComplete :: ([BackendMessage.DataRow [], .NoticeResponse [(83, "NOTICE")]] ++
          .CommandComplete "INSERT 0 42" :: .ReadyForQuery 73 :: []))).2 =
      some (.ok ((fromStrUint ((splitOnChar ' '
        ("INSERT 0 42").data).getLastD [])).getD 0), []) ∧
     (NormalPostgresStatement.try_update ⟨"statement_0", [], [], 0⟩ []
        (.BindComplete :: ([BackendMessage.DataRow [], .NoticeResponse [(83, "NOTICE")]] ++
          .EmptyQueryResponse :: .ReadyForQuery 73 :: []))).2 =
      some (.ok 0, [])) :=
  ⟨rfl, by decide,
   update_rowcount_tag_parse ⟨"statement_0", [], [], 0⟩ []
     [BackendMessage.DataRow [], .NoticeResponse [(83, "NOTICE")]]
     "INSERT 0 42" 73 73 [] [] rfl (by decide)⟩

theorem read_rows_datarows (rows : List RowData) (r : PostgresResult)
    (tr : List BackendMessage) :
    r.read_rows (rows.map .DataRow ++ tr) =
      PostgresResult.read_rows { r with data := r.data ++ rows } tr := by
  induction rows generalizing r with
  | nil => simp
  | cons row rows ih =>
    simp only [List.map_cons, List.cons_append, PostgresResult.read_rows,
      List.append_eq]
    rw [ih]
    simp [List.append_assoc]

/-- C5: next on a result cursor dequeues the front of the row buffer when it
is non-empty (no I/O); returns none with no I/O when the buffer is empty and
more_rows is false; and when the buffer is empty and more_rows is true it
writes Execute(portal, row_limit) and Sync, drains DataRows into the buffer
until CommandComplete or EmptyQueryResponse (more_rows becomes false) or
PortalSuspended (more_rows stays true), consumes the ReadyForQuery, and then
dequeues. -/
theorem result_next_semantics (r : PostgresResult) (trace : List BackendMessage)
    (rows : List RowData) (tag : String) (s : Nat) (rest : List BackendMessage) :
    (∀ row tl, r.data = row :: tl →
      r.next trace = ([], some (some row, { r with data := tl }, trace))) ∧
    (r.data = [] → r.more_rows = false →
      r.next trace = ([], some (none, r, trace))) ∧
    (r.data = [] → r.more_rows = true →
      r.next (rows.map .DataRow ++ .PortalSuspended :: .ReadyForQuery s :: rest) =
        ([.Execute r.name (i32ofNat r.row_limit), .Sync],
         match rows with
         | [] => some (none, { r with data := [], more_rows := true }, rest)
         | row :: tl =>
           some (some row, { r with data := tl, more_rows := true }, rest))) ∧
    (r.data = [] → r.more_rows = true →
      r.next (rows.map .DataRow ++ .CommandComplete tag :: .ReadyForQuery s :: rest) =
        ([.Execute r.name (i32ofNat r.row_limit), .Sync],
         match rows with
         | [] => some (none, { r with data := [], more_rows := false }, rest)
         | row :: tl =>
           some (some row, { r with data := tl, more_rows := false }, rest))) ∧
    (r.data = [] → r.more_rows = true →
      r.next (rows.map .DataRow ++ .EmptyQueryResponse :: .ReadyForQuery s :: rest) =
        ([.Execute r.name (i32ofNat r.row_limit), .Sync],
         match rows with
         | [] => some (none, { r with data := [], more_rows := false }, rest)
         | row :: tl =>
           some (some row, { r with data := tl, more_rows := false }, rest))) := by
  obtain ⟨stmt, name, data, limit, more⟩ := r
  refine ⟨?_, ?_, ?_, ?_, ?_⟩
  · intro row tl hdata
    simp only at hdata
    subst hdata
    rfl
  · intro hdata hmore
    simp only at hdata hmore
    subst hdata
    subst hmore
    rfl
  all_goals
    intro hdata hmore
    simp only at hdata hmore
    subst hdata
    subst hmore
    simp only [PostgresResult.next, PostgresResult.execute, read_rows_datarows]
    cases rows with
    | nil => rfl
    | cons row tl => rfl

/-- Witness for C5: the three modes at concrete cursors — dequeue from a
non-empty buffer, end of stream with no I/O, and a fetch that drains one
DataRow and a PortalSuspended before dequeueing. -/
theorem result_next_semantics_witness :
    (PostgresResult.next
        ⟨⟨"statement_0", [], [], 0⟩, "statement_0_portal_0", [[some [1]]], 3, true⟩
        [] =
      ([], some (some [some [1]],
        ⟨⟨"statement_0", [], [], 0⟩, "statement_0_portal_0", [], 3, true⟩, []))) ∧
    (PostgresResult.next
        ⟨⟨"statement_0", [], [], 0⟩, "statement_0_portal_0", [], 3, false⟩ [] =
      ([], some (none,
        ⟨⟨"statement_0", [], [], 0⟩, "statement_0_portal_0", [], 3, false⟩, []))) ∧
    (PostgresResult.next
        ⟨⟨"statement_0", [], [], 0⟩, "statement_0_portal_0", [], 3, true⟩
        ([[some [2]]].map BackendMessage.DataRow ++
          .PortalSuspended :: .ReadyForQuery 73 :: []) =
      ([.Execute "statement_0_portal_0" (i32ofNat 3), .Sync],
        some (some [some [2]],
          ⟨⟨"statement_0", [], [], 0⟩, "statement_0_portal_0", [], 3, true⟩, []))) :=
  ⟨(result_next_semantics
      ⟨⟨"statement_0", [], [], 0⟩, "statement_0_portal_0", [[some [1]]], 3, true⟩
      [] [] "" 0 []).1 [some [1]] [] rfl,
   (result_next_semantics
      ⟨⟨"statement_0", [], [], 0⟩, "statement_0_portal_0", [], 3, false⟩
      [] [] "" 0 []).2.1 rfl rfl,
   (result_next_semantics
      ⟨⟨"statement_0", [], [], 0⟩, "statement_0_portal_0", [], 3, true⟩
      [] [[some [2]]] "" 73 []).2.2.1 rfl rfl⟩

theorem findIdx?_unique {α : Type} (p : α → Bool) (l : List α) (i : Nat)
    (hi : i < l.length) (hp : p (l.get ⟨i, hi⟩) = true)
    (huniq : l.countP p = 1) : l.findIdx? p = some i := by
  induction l generalizing i with
  | nil => simp at hi
  | cons x xs ih =>
    by_cases hx : p x = true
    · have hzero : xs.countP p = 0 := by
        rw [List.countP_cons, if_pos hx] at huniq
        omega
      have hnone := List.countP_eq_zero.mp hzero
      match i with
      | 0 => simp [List.findIdx?_cons, hx]
      | j + 1 =>
        exfalso
        have hj : j < xs.length := by simpa using hi
        exact hnone _ (xs.get_mem j hj) (by simpa using hp)
    · match i with
      | 0 =>
        exact absurd (by simpa using hp) hx
      | j + 1 =>
        have hj : j < xs.length := by simpa using hi
        have hcount : xs.countP p = 1 := by
          rw [List.countP_cons, if_neg hx] at huniq
          simpa using huniq
        have := ih j hj (by simpa using hp) hcount
        simp [List.findIdx?_cons, hx, List.findIdx?_succ, this]

/-- C7: indexing a row by the name of column i equals indexing it by i
whenever that name occurs exactly once among the result descriptions, for
any decoder; and find_col_named is a linear scan: it returns none exactly
when no description carries the name, and when it returns an index, that
index is in range, carries the name, and no earlier index does. -/
theorem col_by_name_eq_col_by_index {V : Type}
    (from_sql : PostgresType → Option (List Nat) → V) (row : PostgresRow)
    (i : Nat) (hi : i < row.stmt.result_desc.length)
    (huniq : row.stmt.result_desc.countP
        (fun d => d.name == (row.stmt.result_desc.get ⟨i, hi⟩).name) = 1) :
    row.index_by_name from_sql (row.stmt.result_desc.get ⟨i, hi⟩).name =
      row.index from_sql i ∧
    (∀ col : String, row.stmt.find_col_named col = none ↔
      ∀ d ∈ row.stmt.result_desc, d.name ≠ col) ∧
    (∀ (col : String) (j : Nat), row.stmt.find_col_named col = some j →
      ∃ hj : j < row.stmt.result_desc.length,
        (row.stmt.result_desc.get ⟨j, hj⟩).name = col ∧
        ∀ k, (hk : k < j) →
          (row.stmt.result_desc.get ⟨k, Nat.lt_trans hk hj⟩).name ≠ col) := by
  refine ⟨?_, ?_, ?_⟩
  · have hfind : row.stmt.find_col_named
        (row.stmt.result_desc.get ⟨i, hi⟩).name = some i := by
      unfold NormalPostgresStatement.find_col_named
      exact findIdx?_unique _ _ i hi (by simp) huniq
    unfold PostgresRow.index_by_name RowIndex.idxOfName
    rw [hfind]
  · intro col
    unfold NormalPostgresStatement.find_col_named
    rw [List.findIdx?_eq_none_iff]
    constructor
    · intro h d hd
      simpa using h d hd
    · intro h d hd
      simpa using h d hd
  · intro col j hfind
    unfold NormalPostgresStatement.find_col_named at hfind
    rw [List.findIdx?_eq_some_iff_findIdx_eq] at hfind
    obtain ⟨hj, hidx⟩ := hfind
    refine ⟨hj, ?_, ?_⟩
    · have := @List.findIdx_getElem _ (fun d => d.name == col)
        row.stmt.result_desc (by rw [hidx]; exact hj)
      simp only [hidx] at this
      simpa [List.get_eq_getElem] using this
    · intro k hk
      have := @List.not_of_lt_findIdx _ (fun d => d.name == col)
        row.stmt.result_desc k (by rw [hidx]; exact hk)
      simpa [List.get_eq_getElem] using this

/-- Witness for C7: a two-column description with distinct names a and b;
indexing by name b equals indexing by index 1, with the pair of type and
payload as the decoded value. -/
theorem col_by_name_eq_col_by_index_witness :
    PostgresRow.index_by_name (fun ty d => (ty, d))
        ⟨⟨"statement_0", [], [⟨"a", ⟨23, 0⟩⟩, ⟨"b", ⟨25, 0⟩⟩], 0⟩,
          [some [1], none]⟩ "b" =
      PostgresRow.index (fun ty d => (ty, d))
        ⟨⟨"statement_0", [], [⟨"a", ⟨23, 0⟩⟩, ⟨"b", ⟨25, 0⟩⟩], 0⟩,
          [some [1], none]⟩ 1 :=
  (col_by_name_eq_col_by_index (fun ty d => (ty, d))
    ⟨⟨"statement_0", [], [⟨"a", ⟨23, 0⟩⟩, ⟨"b", ⟨25, 0⟩⟩], 0⟩, [some [1], none]⟩
    1 (by decide) (by decide)).1

end RustPostgres
